import Mathlib

/-!
Verification of the playlist-transfer engine and its platform adapters.

The definitions below are a shallow embedding of the TypeScript sources:
the transfer engine (`transferPlaylist`), the shared data model
(`src/lib/types/index.ts`), and the four platform adapters
(`spotify.ts`, `youtube.ts`, `apple-music.ts`, `kkbox.ts`).
Asynchronous calls become explicit function applications; the `onProgress`
callback becomes an accumulated event list; the in-place mutation of the
located source playlist becomes an explicit update of the listing; a
rejected `fetch` promise becomes an explicit `raised` outcome.
-/

namespace PlaylistTransfer

/-- `Track` from `src/lib/types/index.ts`; the optional `isrc` is an
`Option String` (JavaScript `undefined` becomes `none`). -/
structure Track where
  id : String
  name : String
  artist : String
  album : String
  durationMs : Nat
  isrc : Option String
deriving DecidableEq, Repr

/-- `Playlist` from `src/lib/types/index.ts`. -/
structure Playlist where
  id : String
  name : String
  description : Option String
  trackCount : Nat
  tracks : List Track
  imageUrl : Option String
deriving DecidableEq, Repr

/-- The `{ added, failed }` record returned by every adapter's `addTracks`. -/
structure AddCounts where
  added : Nat
  failed : Nat
deriving DecidableEq, Repr

/-- `TransferResult` from `src/lib/types/index.ts`. -/
structure TransferResult where
  sourcePlaylist : Playlist
  targetPlaylistId : String
  matched : List Track
  unmatched : List Track
  totalTracks : Nat
deriving DecidableEq, Repr

/-- The six phases of `TransferProgress.phase`. -/
inductive Phase where
  | fetching
  | reading
  | creating
  | matching
  | transferring
  | complete
deriving DecidableEq, Repr

/-- `TransferProgress` from the engine module. -/
structure TransferProgress where
  phase : Phase
  current : Nat
  total : Nat
  message : String
deriving DecidableEq, Repr

/-- The engine-facing `MusicProvider` interface: each method takes the
bearer token first, exactly as in `src/lib/types/index.ts`.  The methods
the engine drives are modelled as total functions of their arguments (the
claims about the engine quantify over invocations in which these calls
return). -/
structure MusicProvider where
  name : String
  getPlaylists : String → List Playlist
  getPlaylistTracks : String → String → List Track
  createPlaylist : String → String → Option String → String
  searchTrack : String → Track → Option Track
  addTracks : String → String → List Track → AddCounts

/-- One observable call performed on the target adapter during a run. -/
inductive TargetCall where
  | createPlaylist (name : String) (description : Option String)
  | searchTrack (track : Track)
  | addTracks (playlistId : String) (tracks : List Track)
deriving DecidableEq, Repr

/-- Everything observable about one `transferPlaylist` invocation: the
progress events delivered to `onProgress` in order, the calls made on the
target adapter in order, the returned value or thrown message, and the
source listing after the engine's in-place mutation of the located
playlist. -/
structure RunOutput where
  events : List TransferProgress
  targetCalls : List TargetCall
  result : Except String TransferResult
  finalPlaylists : List Playlist

/-- JavaScript `sourcePlaylist.description || fallback`: the empty string
and `undefined` are both falsy. -/
def descriptionOr (d : Option String) (fallback : String) : String :=
  match d with
  | some s => if s = "" then fallback else s
  | none => fallback

/-- The Step-4 loop of `transferPlaylist`: for each source track, emit one
`matching` event (1-based `current`), call the target adapter's
`searchTrack`, and push onto `matched` (the found track) or `unmatched`
(the source track).  Returns `(events, matched, unmatched)`. -/
def matchLoop (search : Track → Option Track) (total : Nat) :
    List Track → Nat → List TransferProgress × List Track × List Track
  | [], _ => ([], [], [])
  | t :: rest, i =>
    let r := matchLoop search total rest (i + 1)
    let ev : TransferProgress :=
      ⟨Phase.matching, i + 1, total, "Matching: " ++ t.artist ++ " - " ++ t.name⟩
    match search t with
    | some found => (ev :: r.1, found :: r.2.1, r.2.2)
    | none => (ev :: r.1, r.2.1, t :: r.2.2)

/-- In-place mutation of the object returned by `Array.prototype.find`:
only the first element satisfying `f` is replaced by its `g`-image. -/
def updateFirst (f : Playlist → Bool) (g : Playlist → Playlist) :
    List Playlist → List Playlist
  | [] => []
  | p :: ps => if f p then g p :: ps else p :: updateFirst f g ps

/-- `transferPlaylist` from the engine module, instrumented with the
observable outputs of the run.  A missing playlist reproduces the
`throw new Error(...)` path: the run stops after the `fetching` event
with the thrown message in `result`. -/
def transferPlaylist (sourceProvider targetProvider : MusicProvider)
    (sourceToken targetToken playlistId : String) : RunOutput :=
  let fetchingEv : TransferProgress :=
    ⟨Phase.fetching, 0, 0, "Fetching playlist details..."⟩
  let playlists := sourceProvider.getPlaylists sourceToken
  match playlists.find? (fun p => p.id == playlistId) with
  | none =>
    { events := [fetchingEv]
      targetCalls := []
      result := Except.error ("Playlist " ++ playlistId ++ " not found")
      finalPlaylists := playlists }
  | some found =>
    let readingEv : TransferProgress :=
      ⟨Phase.reading, 0, 0, "Reading tracks from \"" ++ found.name ++ "\"..."⟩
    let sourceTracks := sourceProvider.getPlaylistTracks sourceToken playlistId
    let sourcePlaylist : Playlist :=
      { found with tracks := sourceTracks, trackCount := sourceTracks.length }
    let creatingEv : TransferProgress :=
      ⟨Phase.creating, 0, sourceTracks.length,
        "Creating \"" ++ sourcePlaylist.name ++ "\" on " ++ targetProvider.name ++ "..."⟩
    let desc := descriptionOr sourcePlaylist.description
      ("Transferred from " ++ sourceProvider.name)
    let targetPlaylistId :=
      targetProvider.createPlaylist targetToken sourcePlaylist.name (some desc)
    let m := matchLoop (targetProvider.searchTrack targetToken) sourceTracks.length
      sourceTracks 0
    let matched := m.2.1
    let unmatched := m.2.2
    let transferringEv : TransferProgress :=
      ⟨Phase.transferring, 0, matched.length,
        "Adding " ++ toString matched.length ++ " tracks..."⟩
    let counts := targetProvider.addTracks targetToken targetPlaylistId matched
    let completeEv : TransferProgress :=
      ⟨Phase.complete, matched.length, sourceTracks.length,
        "Done! " ++ toString counts.added ++ " added, " ++
          toString unmatched.length ++ " unmatched."⟩
    { events := [fetchingEv, readingEv, creatingEv] ++ m.1 ++ [transferringEv, completeEv]
      targetCalls :=
        TargetCall.createPlaylist sourcePlaylist.name (some desc) ::
          sourceTracks.map TargetCall.searchTrack ++
            [TargetCall.addTracks targetPlaylistId matched]
      result := Except.ok
        { sourcePlaylist := sourcePlaylist
          targetPlaylistId := targetPlaylistId
          matched := matched
          unmatched := unmatched
          totalTracks := sourceTracks.length }
      finalPlaylists := updateFirst (fun p => p.id == playlistId)
        (fun p => { p with tracks := sourceTracks, trackCount := sourceTracks.length })
        playlists }

/-! ### Platform adapters

Each adapter is embedded against a model of the remote platform for a
fixed bearer token: one function per HTTP endpoint the adapter calls,
returning a `FetchReply`.  A rejected `fetch` promise propagates out of
the adapter method as `CallResult.raised`. -/

/-- Outcome of an adapter method call: `raised` models a rejected `fetch`
promise propagating out of the method; `value` is a normal return. -/
inductive CallResult (α : Type) where
  | raised
  | value (a : α)
deriving DecidableEq, Repr

/-- One HTTP exchange as the adapters observe it: `fail` is a rejected
`fetch` (network-level failure); `error` is a response with `ok = false`,
whose JSON body is an error document carrying none of the expected data
fields; `ok` is a successful response with the parsed payload. -/
inductive FetchReply (α : Type) where
  | fail
  | error (status : Nat)
  | ok (body : α)
deriving DecidableEq, Repr

/-- The Spotify Web API as `spotify.ts` reaches it: `search` is
`GET /v1/search?q=...&type=track&limit=1`, giving the parsed
`data.tracks.items` (an `ok = false` body has no such field, hence no
items); `addBatch` is `POST /v1/playlists/{id}/tracks` with one batch of
track URIs. -/
structure SpotifyPlatform where
  search : String → FetchReply (List Track)
  addBatch : String → List String → FetchReply Unit

/-- The free-text query of `SpotifyProvider.searchTrack`:
`track:{name} artist:{artist}`. -/
def spotifyTextQuery (track : Track) : String :=
  "track:" ++ track.name ++ " artist:" ++ track.artist

/-- The fallback branch of `SpotifyProvider.searchTrack`: the code reads
`data.tracks?.items` without checking `response.ok`, so an error reply
yields no items and `null` is returned. -/
def spotifyTextSearch (pf : SpotifyPlatform) (track : Track) :
    CallResult (Option Track) :=
  match pf.search (spotifyTextQuery track) with
  | .fail => .raised
  | .error _ => .value none
  | .ok [] => .value none
  | .ok (t :: _) => .value (some t)

/-- `SpotifyProvider.searchTrack`: `if (track.isrc)` tries `q=isrc:{isrc}`
first (the empty string is falsy) and returns its first item when there is
one; otherwise it falls back to the free-text query. -/
def SpotifyProvider.searchTrack (pf : SpotifyPlatform) (track : Track) :
    CallResult (Option Track) :=
  match track.isrc with
  | some isrc =>
    if isrc = "" then spotifyTextSearch pf track
    else
      match pf.search ("isrc:" ++ isrc) with
      | .fail => .raised
      | .error _ => spotifyTextSearch pf track
      | .ok [] => spotifyTextSearch pf track
      | .ok (t :: _) => .value (some t)
  | none => spotifyTextSearch pf track

/-- `Promise.all(tracks.map(...))` inside `SpotifyProvider.addTracks`:
each track resolves to an optional Spotify URI; one rejected search
rejects the whole batch. -/
def spotifyResolveUris (pf : SpotifyPlatform) :
    List Track → CallResult (List (Option String))
  | [] => .value []
  | t :: rest =>
    match SpotifyProvider.searchTrack pf t with
    | .raised => .raised
    | .value r =>
      match spotifyResolveUris pf rest with
      | .raised => .raised
      | .value us =>
        .value ((r.map fun found => "spotify:track:" ++ found.id) :: us)

/-- The batched `POST` loop of `SpotifyProvider.addTracks`: slices of 100
URIs; an `ok` response adds the batch length to `added`, a non-success
response adds it to `failed`, and a rejected `fetch` propagates. -/
def spotifyAddLoop (pf : SpotifyPlatform) (playlistId : String) :
    List String → CallResult (Nat × Nat)
  | [] => .value (0, 0)
  | u :: us =>
    let batch := (u :: us).take 100
    let rest := (u :: us).drop 100
    match pf.addBatch playlistId batch with
    | .fail => .raised
    | .error _ =>
      match spotifyAddLoop pf playlistId rest with
      | .raised => .raised
      | .value (a, f) => .value (a, batch.length + f)
    | .ok _ =>
      match spotifyAddLoop pf playlistId rest with
      | .raised => .raised
      | .value (a, f) => .value (batch.length + a, f)
  termination_by l => l.length
  decreasing_by all_goals simp [List.length_drop]; omega

/-- `SpotifyProvider.addTracks`: resolve every track to a URI, count the
unresolved ones as `failed`, then add the resolved URIs in batches. -/
def SpotifyProvider.addTracks (pf : SpotifyPlatform) (playlistId : String)
    (tracks : List Track) : CallResult AddCounts :=
  match spotifyResolveUris pf tracks with
  | .raised => .raised
  | .value uris =>
    let validUris := uris.filterMap id
    match spotifyAddLoop pf playlistId validUris with
    | .raised => .raised
    | .value (a, f) => .value ⟨a, (uris.length - validUris.length) + f⟩

/-- The YouTube Data API as `youtube.ts` reaches it: `videoSearch` is
`GET /v3/search?...&q=...`, giving the video ids (`item.id.videoId`) of
`data.items`; `insertItem` is `POST /v3/playlistItems` for one video.
`isrcIndex` models the catalog's ISRC-keyed lookup; this adapter never
queries it. -/
structure YouTubePlatform where
  isrcIndex : String → FetchReply (List Track)
  videoSearch : String → FetchReply (List String)
  insertItem : String → String → FetchReply Unit

/-- The query of `YouTubeMusicProvider.searchTrack`: `{artist} {name}`
when the artist is truthy, else just the name. -/
def youtubeQuery (track : Track) : String :=
  if track.artist = "" then track.name else track.artist ++ " " ++ track.name

/-- `YouTubeMusicProvider.searchTrack`: a single text search with no
`response.ok` check (an error body has no items); the returned track
keeps the input's name and artist with the found video id. -/
def YouTubeMusicProvider.searchTrack (pf : YouTubePlatform) (track : Track) :
    CallResult (Option Track) :=
  match pf.videoSearch (youtubeQuery track) with
  | .fail => .raised
  | .error _ => .value none
  | .ok [] => .value none
  | .ok (vid :: _) => .value (some ⟨vid, track.name, track.artist, "", 0, none⟩)

/-- `YouTubeMusicProvider.addTracks`: per track, search then insert; a
search miss or a non-success insert response counts as `failed`, a
successful insert as `added`; a rejected `fetch` propagates. -/
def YouTubeMusicProvider.addTracks (pf : YouTubePlatform) (playlistId : String) :
    List Track → CallResult AddCounts
  | [] => .value ⟨0, 0⟩
  | t :: rest =>
    match YouTubeMusicProvider.searchTrack pf t with
    | .raised => .raised
    | .value none =>
      match YouTubeMusicProvider.addTracks pf playlistId rest with
      | .raised => .raised
      | .value ⟨a, f⟩ => .value ⟨a, f + 1⟩
    | .value (some found) =>
      match pf.insertItem playlistId found.id with
      | .fail => .raised
      | .error _ =>
        match YouTubeMusicProvider.addTracks pf playlistId rest with
        | .raised => .raised
        | .value ⟨a, f⟩ => .value ⟨a, f + 1⟩
      | .ok _ =>
        match YouTubeMusicProvider.addTracks pf playlistId rest with
        | .raised => .raised
        | .value ⟨a, f⟩ => .value ⟨a + 1, f⟩

/-- The KKBox Open API as `kkbox.ts` reaches it: `search` is
`GET /v1.1/search?q=...&type=track`, giving the parsed
`data.tracks.data`; `addBatch` is `POST /v1.1/playlists/{id}/tracks` with
the resolved track ids.  `isrcIndex` models the catalog's ISRC-keyed
lookup; this adapter never queries it. -/
structure KKBoxPlatform where
  isrcIndex : String → FetchReply (List Track)
  search : String → FetchReply (List Track)
  addBatch : String → List String → FetchReply Unit

/-- The query of `KKBoxProvider.searchTrack`: `` `${name} ${artist}`.trim() ``. -/
def kkboxQuery (track : Track) : String :=
  (track.name ++ " " ++ track.artist).trim

/-- `KKBoxProvider.searchTrack`: a single text search;
`if (!response.ok) return null` turns a non-success response into a
not-found result. -/
def KKBoxProvider.searchTrack (pf : KKBoxPlatform) (track : Track) :
    CallResult (Option Track) :=
  match pf.search (kkboxQuery track) with
  | .fail => .raised
  | .error _ => .value none
  | .ok [] => .value none
  | .ok (t :: _) => .value (some t)

/-- The resolution loop of `KKBoxProvider.addTracks`: search every track
in order, collecting the hits and counting the misses as `failed`. -/
def kkboxResolve (pf : KKBoxPlatform) :
    List Track → CallResult (List Track × Nat)
  | [] => .value ([], 0)
  | t :: rest =>
    match KKBoxProvider.searchTrack pf t with
    | .raised => .raised
    | .value r =>
      match kkboxResolve pf rest with
      | .raised => .raised
      | .value (res, f) =>
        match r with
        | some found => .value (found :: res, f)
        | none => .value (res, f + 1)

/-- `KKBoxProvider.addTracks`: resolve, then one batched add of all
resolved ids, skipped entirely when nothing resolved; an `ok` add counts
every resolved track as `added`, a non-success add counts them all as
`failed`. -/
def KKBoxProvider.addTracks (pf : KKBoxPlatform) (playlistId : String)
    (tracks : List Track) : CallResult AddCounts :=
  match kkboxResolve pf tracks with
  | .raised => .raised
  | .value (resolved, failed) =>
    match resolved with
    | [] => .value ⟨0, failed⟩
    | _ :: _ =>
      match pf.addBatch playlistId (resolved.map fun t => t.id) with
      | .fail => .raised
      | .error _ => .value ⟨0, failed + resolved.length⟩
      | .ok _ => .value ⟨resolved.length, failed⟩

/-- The Apple Music API as `apple-music.ts` reaches it: `isrcSongs` is
`GET /catalog/us/songs?filter[isrc]=...`, giving the parsed `data.data`;
`search` is `GET /catalog/us/search?term=...&types=songs`, giving the
parsed `results.songs.data`; `addBatch` is
`POST /me/library/playlists/{id}/tracks` with the resolved song ids. -/
structure ApplePlatform where
  isrcSongs : String → FetchReply (List Track)
  search : String → FetchReply (List Track)
  addBatch : String → List String → FetchReply Unit

/-- The text query of `AppleMusicProvider.searchTrack`: `{artist} {name}`. -/
def appleQuery (track : Track) : String :=
  track.artist ++ " " ++ track.name

/-- The fallback branch of `AppleMusicProvider.searchTrack`:
`if (!response.ok) return null` turns a non-success response into a
not-found result. -/
def appleTextSearch (pf : ApplePlatform) (track : Track) :
    CallResult (Option Track) :=
  match pf.search (appleQuery track) with
  | .fail => .raised
  | .error _ => .value none
  | .ok [] => .value none
  | .ok (t :: _) => .value (some t)

/-- `AppleMusicProvider.searchTrack`: `if (track.isrc)` tries the ISRC
filter first (the empty string is falsy); a non-success or empty ISRC
reply falls through to the text search. -/
def AppleMusicProvider.searchTrack (pf : ApplePlatform) (track : Track) :
    CallResult (Option Track) :=
  match track.isrc with
  | some isrc =>
    if isrc = "" then appleTextSearch pf track
    else
      match pf.isrcSongs isrc with
      | .fail => .raised
      | .error _ => appleTextSearch pf track
      | .ok [] => appleTextSearch pf track
      | .ok (t :: _) => .value (some t)
  | none => appleTextSearch pf track

/-- The resolution loop of `AppleMusicProvider.addTracks`, identical in
shape to the KKBox one. -/
def appleResolve (pf : ApplePlatform) :
    List Track → CallResult (List Track × Nat)
  | [] => .value ([], 0)
  | t :: rest =>
    match AppleMusicProvider.searchTrack pf t with
    | .raised => .raised
    | .value r =>
      match appleResolve pf rest with
      | .raised => .raised
      | .value (res, f) =>
        match r with
        | some found => .value (found :: res, f)
        | none => .value (res, f + 1)

/-- `AppleMusicProvider.addTracks`: resolve, then one batched add of all
resolved ids, skipped entirely when nothing resolved. -/
def AppleMusicProvider.addTracks (pf : ApplePlatform) (playlistId : String)
    (tracks : List Track) : CallResult AddCounts :=
  match appleResolve pf tracks with
  | .raised => .raised
  | .value (resolved, failed) =>
    match resolved with
    | [] => .value ⟨0, failed⟩
    | _ :: _ =>
      match pf.addBatch playlistId (resolved.map fun t => t.id) with
      | .fail => .raised
      | .error _ => .value ⟨0, failed + resolved.length⟩
      | .ok _ => .value ⟨resolved.length, failed⟩

/-! ### Helper lemmas about the engine's matching loop -/

/-- The `matching` event the engine emits for the track at 0-based
position `p.1`: 1-based `current`, `total` the source track count, and a
message naming the artist and the track. -/
def matchingEvent (total : Nat) (p : Nat × Track) : TransferProgress :=
  ⟨Phase.matching, p.1 + 1, total, "Matching: " ++ p.2.artist ++ " - " ++ p.2.name⟩

theorem matchLoop_events (s : Track → Option Track) (total : Nat) :
    ∀ (ts : List Track) (i : Nat),
      (matchLoop s total ts i).1 = (ts.enumFrom i).map (matchingEvent total)
  | [], _ => rfl
  | t :: rest, i => by
    simp only [matchLoop, List.enumFrom, List.map]
    cases h : s t <;>
      simp [h, matchLoop_events s total rest (i + 1), matchingEvent]

theorem matchLoop_matched (s : Track → Option Track) (total : Nat) :
    ∀ (ts : List Track) (i : Nat),
      (matchLoop s total ts i).2.1 = ts.filterMap s
  | [], _ => rfl
  | t :: rest, i => by
    simp only [matchLoop, List.filterMap]
    cases h : s t <;> simp [h, matchLoop_matched s total rest (i + 1)]

theorem matchLoop_unmatched (s : Track → Option Track) (total : Nat) :
    ∀ (ts : List Track) (i : Nat),
      (matchLoop s total ts i).2.2 = ts.filter (fun t => (s t).isNone)
  | [], _ => rfl
  | t :: rest, i => by
    simp only [matchLoop]
    cases h : s t <;>
      simp [h, List.filter_cons, matchLoop_unmatched s total rest (i + 1)]

theorem length_filterMap_add_length_filter (s : Track → Option Track) :
    ∀ ts : List Track,
      (ts.filterMap s).length + (ts.filter (fun t => (s t).isNone)).length = ts.length
  | [] => rfl
  | t :: rest => by
    have ih := length_filterMap_add_length_filter s rest
    cases h : s t <;> simp [List.filter_cons, h] <;> omega

/-! ### Engine claims -/

/-- C1: every invocation of `transferPlaylist` that returns a
`TransferResult` delivers to `onProgress` exactly the sequence
`fetching`, `reading`, `creating`, one `matching` event per source track
in source order (1-based `current`, `total` the source track count, a
message naming the artist and the track), `transferring`, `complete` —
no phase skipped, repeated, or out of order. -/
theorem transfer_progress_event_sequence (sp tp : MusicProvider)
    (st tt pid : String) (r : TransferResult)
    (h : (transferPlaylist sp tp st tt pid).result = Except.ok r) :
    (transferPlaylist sp tp st tt pid).events =
      ⟨Phase.fetching, 0, 0, "Fetching playlist details..."⟩ ::
      ⟨Phase.reading, 0, 0,
        "Reading tracks from \"" ++ r.sourcePlaylist.name ++ "\"..."⟩ ::
      ⟨Phase.creating, 0, r.totalTracks,
        "Creating \"" ++ r.sourcePlaylist.name ++ "\" on " ++ tp.name ++ "..."⟩ ::
      (r.sourcePlaylist.tracks.enum.map (matchingEvent r.totalTracks) ++
        [⟨Phase.transferring, 0, r.matched.length,
           "Adding " ++ toString r.matched.length ++ " tracks..."⟩,
         ⟨Phase.complete, r.matched.length, r.totalTracks,
           "Done! " ++ toString (tp.addTracks tt r.targetPlaylistId r.matched).added ++
             " added, " ++ toString r.unmatched.length ++ " unmatched."⟩]) := by
  cases hf : (sp.getPlaylists st).find? (fun p => p.id == pid) with
  | none => simp [transferPlaylist, hf] at h
  | some found =>
    simp only [transferPlaylist, hf, Except.ok.injEq] at h ⊢
    subst h
    simp [matchLoop_events, matchLoop_matched, matchLoop_unmatched,
      List.enum, matchingEvent]

/-- C2: every source track lands in exactly one of `matched` (the track
`searchTrack` returned for it) or `unmatched` (the source track itself),
both in source order, and the lengths add up to `totalTracks`, the length
of the fetched source track list. -/
theorem transfer_matched_unmatched_partition (sp tp : MusicProvider)
    (st tt pid : String) (r : TransferResult)
    (h : (transferPlaylist sp tp st tt pid).result = Except.ok r) :
    r.matched = (sp.getPlaylistTracks st pid).filterMap (tp.searchTrack tt) ∧
    r.unmatched =
      (sp.getPlaylistTracks st pid).filter (fun t => (tp.searchTrack tt t).isNone) ∧
    r.totalTracks = (sp.getPlaylistTracks st pid).length ∧
    r.matched.length + r.unmatched.length = r.totalTracks := by
  cases hf : (sp.getPlaylists st).find? (fun p => p.id == pid) with
  | none => simp [transferPlaylist, hf] at h
  | some found =>
    simp only [transferPlaylist, hf, Except.ok.injEq] at h
    subst h
    refine ⟨by simp [matchLoop_matched], by simp [matchLoop_unmatched], rfl, ?_⟩
    simp [matchLoop_matched, matchLoop_unmatched,
      length_filterMap_add_length_filter]

/-- C3: when no playlist in the source listing has the requested id, the
engine throws the not-found error, delivers only the `fetching` event (in
particular no `creating`, `matching`, or `transferring` event), and
performs no call on the target adapter. -/
theorem transfer_missing_playlist_aborts (sp tp : MusicProvider)
    (st tt pid : String)
    (h : ∀ p ∈ sp.getPlaylists st, p.id ≠ pid) :
    (transferPlaylist sp tp st tt pid).result =
      Except.error ("Playlist " ++ pid ++ " not found") ∧
    (transferPlaylist sp tp st tt pid).events =
      [⟨Phase.fetching, 0, 0, "Fetching playlist details..."⟩] ∧
    (transferPlaylist sp tp st tt pid).targetCalls = [] := by
  have hf : (sp.getPlaylists st).find? (fun p => p.id == pid) = none := by
    rw [List.find?_eq_none]
    intro p hp
    simpa using h p hp
  simp [transferPlaylist, hf]

/-- C6: the returned `TransferResult` is identical across any two runs
that differ only in the target adapter's `addTracks` behaviour — the
`{added, failed}` counts influence the `complete` progress message only,
never the result. -/
theorem transfer_result_independent_of_add_counts (sp tp : MusicProvider)
    (st tt pid : String)
    (a1 a2 : String → String → List Track → AddCounts) :
    (transferPlaylist sp { tp with addTracks := a1 } st tt pid).result =
      (transferPlaylist sp { tp with addTracks := a2 } st tt pid).result := by
  cases hf : (sp.getPlaylists st).find? (fun p => p.id == pid) <;>
    simp [transferPlaylist, hf]

theorem updateFirst_length (f : Playlist → Bool) (g : Playlist → Playlist) :
    ∀ l : List Playlist, (updateFirst f g l).length = l.length
  | [] => rfl
  | p :: ps => by
    by_cases h : f p <;> simp [updateFirst, h, updateFirst_length f g ps]

theorem mem_zip_self {l : List Playlist} :
    ∀ pr ∈ l.zip l, pr.2 = pr.1 := by
  induction l with
  | nil => intro pr hpr; simp at hpr
  | cons p ps ih =>
    intro pr hpr
    rcases List.mem_cons.mp hpr with h | h
    · simp [h]
    · exact ih pr h

theorem updateFirst_zip (f : Playlist → Bool) (g : Playlist → Playlist) :
    ∀ l : List Playlist, ∀ pr ∈ l.zip (updateFirst f g l),
      (f pr.1 = false → pr.2 = pr.1) ∧
      (pr.2 = pr.1 ∨ (f pr.1 = true ∧ pr.2 = g pr.1)) := by
  intro l
  induction l with
  | nil => intro pr hpr; simp [updateFirst] at hpr
  | cons p ps ih =>
    intro pr hpr
    by_cases h : f p
    · simp only [updateFirst, h, if_pos, List.zip_cons_cons] at hpr
      rcases List.mem_cons.mp hpr with hh | hh
      · subst hh
        exact ⟨fun hc => by simp [h] at hc, Or.inr ⟨h, rfl⟩⟩
      · have := mem_zip_self pr hh
        exact ⟨fun _ => this, Or.inl this⟩
    · simp only [updateFirst, h, if_neg, List.zip_cons_cons,
        Bool.not_eq_true] at hpr
      rcases List.mem_cons.mp hpr with hh | hh
      · subst hh; exact ⟨fun _ => rfl, Or.inl rfl⟩
      · exact ih pr hh

/-- C9: when the engine reaches the `creating` phase, the very first call
it makes on the target adapter is `createPlaylist` with the source
playlist's name and with its description when that is a non-empty string,
otherwise with the synthesized `Transferred from {source adapter name}`
description (a missing or empty description is falsy in the source's
`sourcePlaylist.description || ...`). -/
theorem transfer_creates_with_source_name_and_description
    (sp tp : MusicProvider) (st tt pid : String) (found : Playlist)
    (h : (sp.getPlaylists st).find? (fun p => p.id == pid) = some found) :
    (∀ d, found.description = some d → d ≠ "" →
      (transferPlaylist sp tp st tt pid).targetCalls.head? =
        some (TargetCall.createPlaylist found.name (some d))) ∧
    ((found.description = none ∨ found.description = some "") →
      (transferPlaylist sp tp st tt pid).targetCalls.head? =
        some (TargetCall.createPlaylist found.name
          (some ("Transferred from " ++ sp.name)))) := by
  constructor
  · intro d hd hne
    simp [transferPlaylist, h, descriptionOr, hd, hne]
  · rintro (hd | hd) <;> simp [transferPlaylist, h, descriptionOr, hd]

/-- C10: a run that returns a `TransferResult` changes only the `tracks`
and `trackCount` fields of the located source playlist (to the fetched
track list and its length); the located playlist's `id`, `name`,
`description` and `imageUrl` are surfaced in `result.sourcePlaylist`
exactly as `getPlaylists` produced them, and every other playlist of the
listing is left unmodified. -/
theorem transfer_mutates_only_located_playlist (sp tp : MusicProvider)
    (st tt pid : String) (r : TransferResult) (found : Playlist)
    (h : (transferPlaylist sp tp st tt pid).result = Except.ok r)
    (hf : (sp.getPlaylists st).find? (fun p => p.id == pid) = some found) :
    (r.sourcePlaylist.id = found.id ∧ r.sourcePlaylist.name = found.name ∧
      r.sourcePlaylist.description = found.description ∧
      r.sourcePlaylist.imageUrl = found.imageUrl ∧
      r.sourcePlaylist.tracks = sp.getPlaylistTracks st pid ∧
      r.sourcePlaylist.trackCount = (sp.getPlaylistTracks st pid).length) ∧
    (transferPlaylist sp tp st tt pid).finalPlaylists.length =
      (sp.getPlaylists st).length ∧
    (∀ pr ∈ (sp.getPlaylists st).zip
        (transferPlaylist sp tp st tt pid).finalPlaylists,
      (pr.1.id ≠ pid → pr.2 = pr.1) ∧
      (pr.2 = pr.1 ∨ (pr.1.id = pid ∧
        pr.2 = { pr.1 with
                 tracks := sp.getPlaylistTracks st pid
                 trackCount := (sp.getPlaylistTracks st pid).length }))) := by
  have hres : r.sourcePlaylist =
      { found with
        tracks := sp.getPlaylistTracks st pid
        trackCount := (sp.getPlaylistTracks st pid).length } := by
    simp only [transferPlaylist, hf, Except.ok.injEq] at h
    subst h
    rfl
  refine ⟨by simp [hres], ?_, ?_⟩
  · simp [transferPlaylist, hf, updateFirst_length]
  · intro pr hpr
    have hzip : pr ∈ (sp.getPlaylists st).zip
        (updateFirst (fun p => p.id == pid)
          (fun p => { p with
                      tracks := sp.getPlaylistTracks st pid
                      trackCount := (sp.getPlaylistTracks st pid).length })
          (sp.getPlaylists st)) := by
      simpa [transferPlaylist, hf] using hpr
    have := updateFirst_zip (fun p => p.id == pid)
      (fun p => { p with
                  tracks := sp.getPlaylistTracks st pid
                  trackCount := (sp.getPlaylistTracks st pid).length })
      (sp.getPlaylists st) pr hzip
    constructor
    · intro hne
      exact this.1 (by simp [hne])
    · rcases this.2 with hh | ⟨hid, hh⟩
      · exact Or.inl hh
      · exact Or.inr ⟨by simpa using hid, hh⟩

/-! ### Concrete instances used by the witnesses -/

def trackA : Track := ⟨"a1", "Alpha", "Ann", "LP1", 200000, some "USAAA2400001"⟩

def trackB : Track := ⟨"b1", "Beta", "Bob", "LP2", 180000, none⟩

def targetTrackA : Track := ⟨"ta", "Alpha", "Ann", "LP1", 200000, some "USAAA2400001"⟩

def demoPlaylist : Playlist := ⟨"p1", "Mix", some "liked songs", 2, [], none⟩

def demoSource : MusicProvider :=
  { name := "Spotify"
    getPlaylists := fun _ => [demoPlaylist]
    getPlaylistTracks := fun _ _ => [trackA, trackB]
    createPlaylist := fun _ _ _ => "s-new"
    searchTrack := fun _ _ => none
    addTracks := fun _ _ _ => ⟨0, 0⟩ }

def demoTarget : MusicProvider :=
  { name := "YouTube Music"
    getPlaylists := fun _ => []
    getPlaylistTracks := fun _ _ => []
    createPlaylist := fun _ _ _ => "t-new"
    searchTrack := fun _ t => if t.id == "a1" then some targetTrackA else none
    addTracks := fun _ _ ts => ⟨ts.length, 0⟩ }

/-- The `TransferResult` of running `demoSource → demoTarget` on `"p1"`. -/
def demoResult : TransferResult :=
  { sourcePlaylist := { demoPlaylist with tracks := [trackA, trackB], trackCount := 2 }
    targetPlaylistId := "t-new"
    matched := [targetTrackA]
    unmatched := [trackB]
    totalTracks := 2 }

theorem transfer_progress_event_sequence_witness :
    (transferPlaylist demoSource demoTarget "s" "t" "p1").events =
      ⟨Phase.fetching, 0, 0, "Fetching playlist details..."⟩ ::
      ⟨Phase.reading, 0, 0,
        "Reading tracks from \"" ++ demoResult.sourcePlaylist.name ++ "\"..."⟩ ::
      ⟨Phase.creating, 0, demoResult.totalTracks,
        "Creating \"" ++ demoResult.sourcePlaylist.name ++ "\" on " ++
          demoTarget.name ++ "..."⟩ ::
      (demoResult.sourcePlaylist.tracks.enum.map
          (matchingEvent demoResult.totalTracks) ++
        [⟨Phase.transferring, 0, demoResult.matched.length,
           "Adding " ++ toString demoResult.matched.length ++ " tracks..."⟩,
         ⟨Phase.complete, demoResult.matched.length, demoResult.totalTracks,
           "Done! " ++
             toString (demoTarget.addTracks "t" demoResult.targetPlaylistId
               demoResult.matched).added ++
             " added, " ++ toString demoResult.unmatched.length ++
             " unmatched."⟩]) :=
  transfer_progress_event_sequence demoSource demoTarget "s" "t" "p1" demoResult rfl

theorem transfer_matched_unmatched_partition_witness :
    demoResult.matched =
      (demoSource.getPlaylistTracks "s" "p1").filterMap (demoTarget.searchTrack "t") ∧
    demoResult.unmatched =
      (demoSource.getPlaylistTracks "s" "p1").filter
        (fun t => (demoTarget.searchTrack "t" t).isNone) ∧
    demoResult.totalTracks = (demoSource.getPlaylistTracks "s" "p1").length ∧
    demoResult.matched.length + demoResult.unmatched.length = demoResult.totalTracks :=
  transfer_matched_unmatched_partition demoSource demoTarget "s" "t" "p1" demoResult rfl

theorem transfer_missing_playlist_aborts_witness :
    (transferPlaylist demoSource demoTarget "s" "t" "zz").result =
      Except.error ("Playlist " ++ "zz" ++ " not found") ∧
    (transferPlaylist demoSource demoTarget "s" "t" "zz").events =
      [⟨Phase.fetching, 0, 0, "Fetching playlist details..."⟩] ∧
    (transferPlaylist demoSource demoTarget "s" "t" "zz").targetCalls = [] :=
  transfer_missing_playlist_aborts demoSource demoTarget "s" "t" "zz"
    (by intro p hp; simp [demoSource, demoPlaylist] at hp; simp [hp, demoPlaylist])

theorem transfer_creates_with_source_name_and_description_witness :
    (∀ d, demoPlaylist.description = some d → d ≠ "" →
      (transferPlaylist demoSource demoTarget "s" "t" "p1").targetCalls.head? =
        some (TargetCall.createPlaylist demoPlaylist.name (some d))) ∧
    ((demoPlaylist.description = none ∨ demoPlaylist.description = some "") →
      (transferPlaylist demoSource demoTarget "s" "t" "p1").targetCalls.head? =
        some (TargetCall.createPlaylist demoPlaylist.name
          (some ("Transferred from " ++ demoSource.name)))) :=
  transfer_creates_with_source_name_and_description demoSource demoTarget
    "s" "t" "p1" demoPlaylist rfl

theorem transfer_mutates_only_located_playlist_witness :
    (demoResult.sourcePlaylist.id = demoPlaylist.id ∧
      demoResult.sourcePlaylist.name = demoPlaylist.name ∧
      demoResult.sourcePlaylist.description = demoPlaylist.description ∧
      demoResult.sourcePlaylist.imageUrl = demoPlaylist.imageUrl ∧
      demoResult.sourcePlaylist.tracks = demoSource.getPlaylistTracks "s" "p1" ∧
      demoResult.sourcePlaylist.trackCount =
        (demoSource.getPlaylistTracks "s" "p1").length) ∧
    (transferPlaylist demoSource demoTarget "s" "t" "p1").finalPlaylists.length =
      (demoSource.getPlaylists "s").length ∧
    (∀ pr ∈ (demoSource.getPlaylists "s").zip
        (transferPlaylist demoSource demoTarget "s" "t" "p1").finalPlaylists,
      (pr.1.id ≠ "p1" → pr.2 = pr.1) ∧
      (pr.2 = pr.1 ∨ (pr.1.id = "p1" ∧
        pr.2 = { pr.1 with
                 tracks := demoSource.getPlaylistTracks "s" "p1"
                 trackCount := (demoSource.getPlaylistTracks "s" "p1").length }))) :=
  transfer_mutates_only_located_playlist demoSource demoTarget "s" "t" "p1"
    demoResult demoPlaylist rfl rfl

/-! ### Helper lemmas about the adapters' addTracks loops -/

theorem spotifyResolveUris_length (pf : SpotifyPlatform) :
    ∀ (ts : List Track) (us : List (Option String)),
      spotifyResolveUris pf ts = CallResult.value us → us.length = ts.length := by
  intro ts
  induction ts with
  | nil =>
    intro us h
    simp only [spotifyResolveUris] at h
    cases h
    rfl
  | cons t rest ih =>
    intro us h
    simp only [spotifyResolveUris] at h
    cases hs : SpotifyProvider.searchTrack pf t with
    | raised => rw [hs] at h; cases h
    | value r =>
      rw [hs] at h
      cases hr : spotifyResolveUris pf rest with
      | raised => rw [hr] at h; cases h
      | value us' =>
        rw [hr] at h
        cases h
        simp [ih us' hr]

theorem spotifyAddLoop_sum (pf : SpotifyPlatform) (pid : String) :
    ∀ (n : Nat) (us : List String), us.length ≤ n → ∀ r : Nat × Nat,
      spotifyAddLoop pf pid us = CallResult.value r → r.1 + r.2 = us.length := by
  intro n
  induction n with
  | zero =>
    intro us hn r h
    have : us = [] := List.length_eq_zero.mp (Nat.le_zero.mp hn)
    subst this
    rw [spotifyAddLoop] at h
    cases h
    rfl
  | succ n ih =>
    intro us hn r h
    cases us with
    | nil => rw [spotifyAddLoop] at h; cases h; rfl
    | cons u us' =>
      rw [spotifyAddLoop] at h
      have hlen : ((u :: us').drop 100).length ≤ n := by
        simp only [List.length_drop, List.length_cons]
        simp only [List.length_cons] at hn
        omega
      split at h
      · cases h
      · split at h
        · cases h
        · rename_i a f heq
          cases h
          have := ih _ hlen (a, f) heq
          simp only [List.length_take, List.length_drop, List.length_cons] at *
          omega
      · split at h
        · cases h
        · rename_i a f heq
          cases h
          have := ih _ hlen (a, f) heq
          simp only [List.length_take, List.length_drop, List.length_cons] at *
          omega

theorem youtubeAddTracks_sum (pf : YouTubePlatform) (pid : String) :
    ∀ (ts : List Track) (r : AddCounts),
      YouTubeMusicProvider.addTracks pf pid ts = CallResult.value r →
      r.added + r.failed = ts.length := by
  intro ts
  induction ts with
  | nil =>
    intro r h
    rw [YouTubeMusicProvider.addTracks] at h
    cases h
    rfl
  | cons t rest ih =>
    intro r h
    rw [YouTubeMusicProvider.addTracks] at h
    split at h
    · cases h
    · split at h
      · cases h
      · rename_i a f heq
        cases h
        have := ih ⟨a, f⟩ heq
        simp only [List.length_cons]
        simp only [AddCounts.added, AddCounts.failed] at *
        omega
    · split at h
      · cases h
      · split at h
        · cases h
        · rename_i a f heq
          cases h
          have := ih ⟨a, f⟩ heq
          simp only [List.length_cons]
          simp only [AddCounts.added, AddCounts.failed] at *
          omega
      · split at h
        · cases h
        · rename_i a f heq
          cases h
          have := ih ⟨a, f⟩ heq
          simp only [List.length_cons]
          simp only [AddCounts.added, AddCounts.failed] at *
          omega

theorem kkboxResolve_sum (pf : KKBoxPlatform) :
    ∀ (ts : List Track) (r : List Track × Nat),
      kkboxResolve pf ts = CallResult.value r →
      r.1.length + r.2 = ts.length := by
  intro ts
  induction ts with
  | nil =>
    intro r h
    rw [kkboxResolve] at h
    cases h
    rfl
  | cons t rest ih =>
    intro r h
    rw [kkboxResolve] at h
    split at h
    · cases h
    · split at h
      · cases h
      · rename_i res f heq
        split at h <;> cases h <;>
          have := ih (res, f) heq <;>
          simp only [List.length_cons] at * <;> omega

theorem appleResolve_sum (pf : ApplePlatform) :
    ∀ (ts : List Track) (r : List Track × Nat),
      appleResolve pf ts = CallResult.value r →
      r.1.length + r.2 = ts.length := by
  intro ts
  induction ts with
  | nil =>
    intro r h
    rw [appleResolve] at h
    cases h
    rfl
  | cons t rest ih =>
    intro r h
    rw [appleResolve] at h
    split at h
    · cases h
    · split at h
      · cases h
      · rename_i res f heq
        split at h <;> cases h <;>
          have := ih (res, f) heq <;>
          simp only [List.length_cons] at * <;> omega

/-! ### Adapter claims -/

/-- C5: for every adapter, whenever `addTracks` returns (rather than
raising at transport level), the returned counts satisfy
`added + failed == tracks.length`: each input track contributes to
exactly one of the two counts. -/
theorem addTracks_counts_partition_input :
    (∀ (pf : SpotifyPlatform) (pid : String) (tracks : List Track) (r : AddCounts),
      SpotifyProvider.addTracks pf pid tracks = CallResult.value r →
      r.added + r.failed = tracks.length) ∧
    (∀ (pf : YouTubePlatform) (pid : String) (tracks : List Track) (r : AddCounts),
      YouTubeMusicProvider.addTracks pf pid tracks = CallResult.value r →
      r.added + r.failed = tracks.length) ∧
    (∀ (pf : KKBoxPlatform) (pid : String) (tracks : List Track) (r : AddCounts),
      KKBoxProvider.addTracks pf pid tracks = CallResult.value r →
      r.added + r.failed = tracks.length) ∧
    (∀ (pf : ApplePlatform) (pid : String) (tracks : List Track) (r : AddCounts),
      AppleMusicProvider.addTracks pf pid tracks = CallResult.value r →
      r.added + r.failed = tracks.length) := by
  refine ⟨?_, ?_, ?_, ?_⟩
  · intro pf pid tracks r h
    simp only [SpotifyProvider.addTracks] at h
    split at h
    · cases h
    · rename_i uris hus
      split at h
      · cases h
      · rename_i a f heq
        cases h
        have h1 := spotifyResolveUris_length pf tracks uris hus
        have h2 := spotifyAddLoop_sum pf pid (uris.filterMap id).length
          (uris.filterMap id) (Nat.le_refl _) (a, f) heq
        have h3 : (uris.filterMap id).length ≤ uris.length :=
          List.length_filterMap_le id uris
        simp only [AddCounts.added, AddCounts.failed] at *
        omega
  · intro pf pid tracks r h
    exact youtubeAddTracks_sum pf pid tracks r h
  · intro pf pid tracks r h
    simp only [KKBoxProvider.addTracks] at h
    split at h
    · cases h
    · rename_i resolved failed hres
      have hsum := kkboxResolve_sum pf tracks (resolved, failed) hres
      split at h
      · cases h
        simpa using hsum
      · rename_i t ts'
        split at h
        · cases h
        · cases h
          simp only [AddCounts.added, AddCounts.failed] at *
          simp only [List.length_cons] at *
          omega
        · cases h
          simp only [AddCounts.added, AddCounts.failed] at *
          omega
  · intro pf pid tracks r h
    simp only [AppleMusicProvider.addTracks] at h
    split at h
    · cases h
    · rename_i resolved failed hres
      have hsum := appleResolve_sum pf tracks (resolved, failed) hres
      split at h
      · cases h
        simpa using hsum
      · rename_i t ts'
        split at h
        · cases h
        · cases h
          simp only [AddCounts.added, AddCounts.failed] at *
          simp only [List.length_cons] at *
          omega
        · cases h
          simp only [AddCounts.added, AddCounts.failed] at *
          omega

/-- C8: for every adapter, `addTracks` on the empty track list returns
`{added: 0, failed: 0}` and performs no add request against the platform:
the result holds for every platform state, including one on which every
endpoint call rejects (`FetchReply.fail`) — had any request been made,
the method would have raised instead of returning. -/
theorem addTracks_empty_returns_zero :
    (∀ (pf : SpotifyPlatform) (pid : String),
      SpotifyProvider.addTracks pf pid [] = CallResult.value ⟨0, 0⟩) ∧
    (∀ (pf : YouTubePlatform) (pid : String),
      YouTubeMusicProvider.addTracks pf pid [] = CallResult.value ⟨0, 0⟩) ∧
    (∀ (pf : KKBoxPlatform) (pid : String),
      KKBoxProvider.addTracks pf pid [] = CallResult.value ⟨0, 0⟩) ∧
    (∀ (pf : ApplePlatform) (pid : String),
      AppleMusicProvider.addTracks pf pid [] = CallResult.value ⟨0, 0⟩) := by
  refine ⟨?_, ?_, ?_, ?_⟩ <;> intro pf pid
  · simp [SpotifyProvider.addTracks, spotifyResolveUris, spotifyAddLoop]
  · rfl
  · rfl
  · rfl

/-- A catalog track reachable through an ISRC-exact lookup. -/
def isrcHitTrack : Track := ⟨"kx1", "Alpha", "Ann", "LP1", 200000, some "USAAA2400001"⟩

/-- A different catalog track ranked first by the free-text search. -/
def textHitTrack : Track :=
  ⟨"ky2", "Alpha (Live)", "Ann", "Live LP", 210000, some "USAAA2400009"⟩

/-- A KKBox platform state holding both an ISRC-exact hit and a different
free-text hit for `trackA`. -/
def kkboxBothHits : KKBoxPlatform :=
  { isrcIndex := fun _ => FetchReply.ok [isrcHitTrack]
    search := fun _ => FetchReply.ok [textHitTrack]
    addBatch := fun _ _ => FetchReply.ok () }

/-- A Spotify platform state whose ISRC query and free-text query rank
different tracks first. -/
def spotifyBothHits : SpotifyPlatform :=
  { search := fun q =>
      if q = "isrc:" ++ "USAAA2400001" then FetchReply.ok [isrcHitTrack]
      else FetchReply.ok [textHitTrack]
    addBatch := fun _ _ => FetchReply.ok () }

/-- C4 counterexample: `KKBoxProvider.searchTrack` issues only the
free-text query, so for a track with a populated ISRC on a platform that
has both an ISRC-exact hit and a different free-text hit, the free-text
hit is returned, not the ISRC-exact one. -/
theorem kkbox_searchTrack_ignores_isrc_counterexample :
    trackA.isrc = some "USAAA2400001" ∧ "USAAA2400001" ≠ "" ∧
    kkboxBothHits.isrcIndex "USAAA2400001" = FetchReply.ok [isrcHitTrack] ∧
    kkboxBothHits.search (kkboxQuery trackA) = FetchReply.ok [textHitTrack] ∧
    textHitTrack ≠ isrcHitTrack ∧
    KKBoxProvider.searchTrack kkboxBothHits trackA =
      CallResult.value (some textHitTrack) :=
  ⟨rfl, by decide, rfl, rfl, by decide, rfl⟩

/-- C4 (amended): for the Spotify and Apple Music adapters, `searchTrack`
on a track with a populated ISRC attempts the ISRC lookup first and
returns its hit in preference to a different free-text hit; the YouTube
and KKBox adapters never attempt an ISRC lookup. -/
theorem spotify_apple_search_prefers_isrc :
    (∀ (pf : SpotifyPlatform) (track : Track) (isrc : String) (x y : Track)
        (xs ys : List Track),
      track.isrc = some isrc → isrc ≠ "" →
      pf.search ("isrc:" ++ isrc) = FetchReply.ok (x :: xs) →
      pf.search (spotifyTextQuery track) = FetchReply.ok (y :: ys) →
      SpotifyProvider.searchTrack pf track = CallResult.value (some x)) ∧
    (∀ (pf : ApplePlatform) (track : Track) (isrc : String) (x y : Track)
        (xs ys : List Track),
      track.isrc = some isrc → isrc ≠ "" →
      pf.isrcSongs isrc = FetchReply.ok (x :: xs) →
      pf.search (appleQuery track) = FetchReply.ok (y :: ys) →
      AppleMusicProvider.searchTrack pf track = CallResult.value (some x)) := by
  constructor
  · intro pf track isrc x y xs ys hi hne hx hy
    simp [SpotifyProvider.searchTrack, hi, hne, hx]
  · intro pf track isrc x y xs ys hi hne hx hy
    simp [AppleMusicProvider.searchTrack, hi, hne, hx]

theorem spotify_apple_search_prefers_isrc_witness :
    SpotifyProvider.searchTrack spotifyBothHits trackA =
      CallResult.value (some isrcHitTrack) :=
  spotify_apple_search_prefers_isrc.1 spotifyBothHits trackA "USAAA2400001"
    isrcHitTrack textHitTrack [] [] rfl (by decide) (by decide) (by decide)

theorem addTracks_counts_partition_input_witness :
    SpotifyProvider.addTracks spotifyBothHits "pl" [trackA, trackB] =
        CallResult.value ⟨2, 0⟩ ∧
    (2 : Nat) + 0 = [trackA, trackB].length := by
  have h : SpotifyProvider.addTracks spotifyBothHits "pl" [trackA, trackB] =
      CallResult.value ⟨2, 0⟩ := by
    simp [SpotifyProvider.addTracks, spotifyResolveUris, spotifyAddLoop,
      SpotifyProvider.searchTrack, spotifyTextSearch, spotifyBothHits,
      trackA, trackB, spotifyTextQuery]
  exact ⟨h, addTracks_counts_partition_input.1 spotifyBothHits "pl"
    [trackA, trackB] ⟨2, 0⟩ h⟩

/-- A KKBox platform state on which every request gets a non-success
HTTP response (`503`). -/
def kkboxServerError : KKBoxPlatform :=
  { isrcIndex := fun _ => FetchReply.error 503
    search := fun _ => FetchReply.error 503
    addBatch := fun _ _ => FetchReply.error 503 }

/-- C7 counterexample: `KKBoxProvider.searchTrack` receives a non-success
(503) response to its search request and silently reports "not found"
instead of raising. -/
theorem kkbox_searchTrack_error_response_counterexample :
    kkboxServerError.search (kkboxQuery trackB) = FetchReply.error 503 ∧
    KKBoxProvider.searchTrack kkboxServerError trackB = CallResult.value none ∧
    KKBoxProvider.searchTrack kkboxServerError trackB ≠ CallResult.raised :=
  ⟨rfl, rfl, by decide⟩

/-- C7 (amended): for the KKBox, Spotify and Apple Music adapters,
`searchTrack` returns a not-found result rather than raising when the
platform has no match; a non-success HTTP response to a search request is
likewise reported as not found; and the call raises exactly on
network-level fetch rejection — it raises when every fetch rejects, and
cannot raise when no fetch rejects. -/
theorem searchTrack_not_found_vs_raise :
    (∀ (pf : KKBoxPlatform) (track : Track),
      (pf.search (kkboxQuery track) = FetchReply.ok [] →
        KKBoxProvider.searchTrack pf track = CallResult.value none) ∧
      (∀ s, pf.search (kkboxQuery track) = FetchReply.error s →
        KKBoxProvider.searchTrack pf track = CallResult.value none) ∧
      (pf.search (kkboxQuery track) = FetchReply.fail →
        KKBoxProvider.searchTrack pf track = CallResult.raised) ∧
      (pf.search (kkboxQuery track) ≠ FetchReply.fail →
        KKBoxProvider.searchTrack pf track ≠ CallResult.raised)) ∧
    (∀ (pf : SpotifyPlatform) (track : Track),
      ((∀ q, pf.search q = FetchReply.ok []) →
        SpotifyProvider.searchTrack pf track = CallResult.value none) ∧
      ((∀ q, ∃ s, pf.search q = FetchReply.error s) →
        SpotifyProvider.searchTrack pf track = CallResult.value none) ∧
      ((∀ q, pf.search q = FetchReply.fail) →
        SpotifyProvider.searchTrack pf track = CallResult.raised) ∧
      ((∀ q, pf.search q ≠ FetchReply.fail) →
        SpotifyProvider.searchTrack pf track ≠ CallResult.raised)) ∧
    (∀ (pf : ApplePlatform) (track : Track),
      ((∀ q, pf.search q = FetchReply.ok []) →
        (∀ i, pf.isrcSongs i = FetchReply.ok []) →
        AppleMusicProvider.searchTrack pf track = CallResult.value none) ∧
      ((∀ q, ∃ s, pf.search q = FetchReply.error s) →
        (∀ i, ∃ s, pf.isrcSongs i = FetchReply.error s) →
        AppleMusicProvider.searchTrack pf track = CallResult.value none) ∧
      ((∀ q, pf.search q = FetchReply.fail) →
        (∀ i, pf.isrcSongs i = FetchReply.fail) →
        AppleMusicProvider.searchTrack pf track = CallResult.raised) ∧
      ((∀ q, pf.search q ≠ FetchReply.fail) →
        (∀ i, pf.isrcSongs i ≠ FetchReply.fail) →
        AppleMusicProvider.searchTrack pf track ≠ CallResult.raised)) := by
  refine ⟨?_, ?_, ?_⟩
  · intro pf track
    refine ⟨?_, ?_, ?_, ?_⟩
    · intro h; simp [KKBoxProvider.searchTrack, h]
    · intro s h; simp [KKBoxProvider.searchTrack, h]
    · intro h; simp [KKBoxProvider.searchTrack, h]
    · intro h
      cases hq : pf.search (kkboxQuery track) with
      | fail => exact absurd hq h
      | error s => simp [KKBoxProvider.searchTrack, hq]
      | ok body => cases body <;> simp [KKBoxProvider.searchTrack, hq]
  · intro pf track
    refine ⟨?_, ?_, ?_, ?_⟩
    · intro h
      cases hi : track.isrc with
      | none => simp [SpotifyProvider.searchTrack, spotifyTextSearch, hi, h]
      | some i =>
        by_cases he : i = "" <;>
          simp [SpotifyProvider.searchTrack, spotifyTextSearch, hi, he, h]
    · intro h
      cases hi : track.isrc with
      | none =>
        obtain ⟨s, hs⟩ := h (spotifyTextQuery track)
        simp [SpotifyProvider.searchTrack, spotifyTextSearch, hi, hs]
      | some i =>
        obtain ⟨s, hs⟩ := h (spotifyTextQuery track)
        by_cases he : i = ""
        · simp [SpotifyProvider.searchTrack, spotifyTextSearch, hi, he, hs]
        · obtain ⟨s2, hs2⟩ := h ("isrc:" ++ i)
          simp [SpotifyProvider.searchTrack, spotifyTextSearch, hi, he, hs, hs2]
    · intro h
      cases hi : track.isrc with
      | none => simp [SpotifyProvider.searchTrack, spotifyTextSearch, hi, h]
      | some i =>
        by_cases he : i = "" <;>
          simp [SpotifyProvider.searchTrack, spotifyTextSearch, hi, he, h]
    · intro h
      cases hi : track.isrc with
      | none =>
        cases hq : pf.search (spotifyTextQuery track) with
        | fail => exact absurd hq (h _)
        | error s => simp [SpotifyProvider.searchTrack, spotifyTextSearch, hi, hq]
        | ok body =>
          cases body <;>
            simp [SpotifyProvider.searchTrack, spotifyTextSearch, hi, hq]
      | some i =>
        by_cases he : i = ""
        · cases hq : pf.search (spotifyTextQuery track) with
          | fail => exact absurd hq (h _)
          | error s =>
            simp [SpotifyProvider.searchTrack, spotifyTextSearch, hi, he, hq]
          | ok body =>
            cases body <;>
              simp [SpotifyProvider.searchTrack, spotifyTextSearch, hi, he, hq]
        · cases hr : pf.search ("isrc:" ++ i) with
          | fail => exact absurd hr (h _)
          | error s =>
            cases hq : pf.search (spotifyTextQuery track) with
            | fail => exact absurd hq (h _)
            | error s2 =>
              simp [SpotifyProvider.searchTrack, spotifyTextSearch, hi, he, hr, hq]
            | ok body =>
              cases body <;>
                simp [SpotifyProvider.searchTrack, spotifyTextSearch, hi, he, hr, hq]
          | ok body =>
            cases body with
            | nil =>
              cases hq : pf.search (spotifyTextQuery track) with
              | fail => exact absurd hq (h _)
              | error s2 =>
                simp [SpotifyProvider.searchTrack, spotifyTextSearch, hi, he, hr, hq]
              | ok body2 =>
                cases body2 <;>
                  simp [SpotifyProvider.searchTrack, spotifyTextSearch, hi, he, hr, hq]
            | cons t ts =>
              simp [SpotifyProvider.searchTrack, spotifyTextSearch, hi, he, hr]
  · intro pf track
    refine ⟨?_, ?_, ?_, ?_⟩
    · intro h h2
      cases hi : track.isrc with
      | none => simp [AppleMusicProvider.searchTrack, appleTextSearch, hi, h]
      | some i =>
        by_cases he : i = "" <;>
          simp [AppleMusicProvider.searchTrack, appleTextSearch, hi, he, h, h2]
    · intro h h2
      cases hi : track.isrc with
      | none =>
        obtain ⟨s, hs⟩ := h (appleQuery track)
        simp [AppleMusicProvider.searchTrack, appleTextSearch, hi, hs]
      | some i =>
        obtain ⟨s, hs⟩ := h (appleQuery track)
        by_cases he : i = ""
        · simp [AppleMusicProvider.searchTrack, appleTextSearch, hi, he, hs]
        · obtain ⟨s2, hs2⟩ := h2 i
          simp [AppleMusicProvider.searchTrack, appleTextSearch, hi, he, hs, hs2]
    · intro h h2
      cases hi : track.isrc with
      | none => simp [AppleMusicProvider.searchTrack, appleTextSearch, hi, h]
      | some i =>
        by_cases he : i = "" <;>
          simp [AppleMusicProvider.searchTrack, appleTextSearch, hi, he, h, h2]
    · intro h h2
      cases hi : track.isrc with
      | none =>
        cases hq : pf.search (appleQuery track) with
        | fail => exact absurd hq (h _)
        | error s => simp [AppleMusicProvider.searchTrack, appleTextSearch, hi, hq]
        | ok body =>
          cases body <;>
            simp [AppleMusicProvider.searchTrack, appleTextSearch, hi, hq]
      | some i =>
        by_cases he : i = ""
        · cases hq : pf.search (appleQuery track) with
          | fail => exact absurd hq (h _)
          | error s =>
            simp [AppleMusicProvider.searchTrack, appleTextSearch, hi, he, hq]
          | ok body =>
            cases body <;>
              simp [AppleMusicProvider.searchTrack, appleTextSearch, hi, he, hq]
        · cases hr : pf.isrcSongs i with
          | fail => exact absurd hr (h2 _)
          | error s =>
            cases hq : pf.search (appleQuery track) with
            | fail => exact absurd hq (h _)
            | error s2 =>
              simp [AppleMusicProvider.searchTrack, appleTextSearch, hi, he, hr, hq]
            | ok body =>
              cases body <;>
                simp [AppleMusicProvider.searchTrack, appleTextSearch, hi, he, hr, hq]
          | ok body =>
            cases body with
            | nil =>
              cases hq : pf.search (appleQuery track) with
              | fail => exact absurd hq (h _)
              | error s2 =>
                simp [AppleMusicProvider.searchTrack, appleTextSearch, hi, he, hr, hq]
              | ok body2 =>
                cases body2 <;>
                  simp [AppleMusicProvider.searchTrack, appleTextSearch, hi, he, hr, hq]
            | cons t ts =>
              simp [AppleMusicProvider.searchTrack, appleTextSearch, hi, he, hr]

theorem searchTrack_not_found_vs_raise_witness :
    KKBoxProvider.searchTrack kkboxServerError trackA = CallResult.value none :=
  ((searchTrack_not_found_vs_raise.1 kkboxServerError trackA).2.1) 503 rfl

end PlaylistTransfer
